import Mathlib

/-!
Shallow embedding of `RTL/examples/dma/sw/main.cpp`: a host-side test driver
for an FPGA DMA accelerator.  The driver allocates two shared buffers,
programs MMIO registers (read address, write address, size in cache lines,
go), busy-polls a done register, compares the buffers element-wise, prints
results and frees the buffers.  Exceptions thrown by the AFU wrapper are
caught at top level of `main` and mapped to messages plus `EXIT_FAILURE`.

The AFU wrapper class (`AFU.h`), `config.h` and the OPAE SDK are not part of
the excerpt, so their contributions (register offsets, `DATA_AMOUNT`,
`sizeof(dma_data_t)`, `AFU::CL_BYTES`, sleep settings, the behaviour of the
wrapper calls, and the OPAE error codes) are modelled from the spec as
abstract parameters (`Config`) and an environment oracle (`Env`).

The semantics is a trace semantics: each observable action of `main`
(wrapper call, MMIO access, buffer assignment, console print, sleep) is an
`Event`; a `Step` is a state transformer that can stop early with an
exception (wrapper call throwing) or by divergence (the busy-poll loop never
seeing a non-zero done value).
-/

/-- Observable actions performed by `main` in `RTL/examples/dma/sw/main.cpp`. -/
inductive Event where
  | ctor                              -- construction of the AFU object
  | malloc (count : Nat) (addr : Nat) -- afu.malloc<dma_data_t>(count) returning addr
  | printAddr (addr : Nat)            -- cout << hex << (long) ptr
  | printTest (t : Nat)               -- cout << "Test " << test << "..."
  | assignInput (i : Nat) (v : Nat)   -- input[i] = (dma_data_t) rand()
  | assignOutput (i : Nat) (v : Nat)  -- output[i] = 0
  | mmioWrite (off : Nat) (v : Nat)   -- afu.write(off, v)
  | mmioRead (off : Nat) (v : Nat)    -- afu.read(off) returning v
  | sleepMs (ms : Nat)                -- this_thread::sleep_for(milliseconds(ms))
  | compare (i : Nat) (outV : Nat) (inV : Nat) -- the check output[i] != input[i]
  | printResets (v : Nat)             -- cout << "# of resets: " << v
  | printFailure (errors : Nat)       -- cout << "FAILURE: DMA Test Failed With ..."
  | printSuccess                      -- cout << "DMA Test Successful!!!"
  | free (addr : Nat)                 -- afu.free(ptr)
  deriving DecidableEq

/-- Modelled from the spec: the OPAE SDK (not in the excerpt) defines the
`fpga_result` error codes; the driver names `FPGA_BUSY` and `FPGA_NOT_FOUND`
and treats the rest uniformly through `fpgaErrStr`. -/
inductive FpgaResult where
  | FPGA_OK
  | FPGA_INVALID_PARAM
  | FPGA_BUSY
  | FPGA_EXCEPTION
  | FPGA_NOT_FOUND
  | FPGA_NO_MEMORY
  | FPGA_NOT_SUPPORTED
  | FPGA_NO_DRIVER
  | FPGA_NO_DAEMON
  | FPGA_NO_ACCESS
  | FPGA_RECONF_ERROR
  deriving DecidableEq

/-- Modelled from the spec: the exception types of the external AFU wrapper
caught at the top level of `main` (an `fpga_result` code, a
`std::runtime_error`, or `opae::fpga::types::no_driver`). -/
inductive CppExn where
  | fpgaResult (r : FpgaResult)
  | runtimeError (msg : String)
  | noDriver
  deriving DecidableEq

/-- Early termination of the test body: an exception escaping the `try`
block, or divergence of the busy-poll loop (`MMIO_DONE` never non-zero). -/
inductive Stop where
  | exn (e : CppExn)
  | diverge
  deriving DecidableEq

/-- Program state threaded through the trace semantics: the number of AFU
wrapper calls made so far and the trace of events emitted so far. -/
structure St where
  calls : Nat
  trace : List Event
  deriving DecidableEq

/-- A step of the program: transforms the state and optionally stops early. -/
abbrev Step := St → St × Option Stop

/-- Modelled from the spec: the compile-time configuration from `config.h`
and `AFU.h` (absent from the excerpt): the five MMIO register offsets, the
element count `DATA_AMOUNT`, `sizeof(dma_data_t)`, `AFU::CL_BYTES`, the
sleep settings, the accelerator UUID, the OPAE `fpgaErrStr` message table,
and the single-precision rounding function `rnd` applied by the hardware
float unit in the cache-line-count computation. -/
structure Config where
  rdAddrOff : Nat      -- MMIO_RD_ADDR
  wrAddrOff : Nat      -- MMIO_WR_ADDR
  sizeOff : Nat        -- MMIO_SIZE
  goOff : Nat          -- MMIO_GO
  doneOff : Nat        -- MMIO_DONE
  dataAmount : Nat     -- DATA_AMOUNT
  sizeofData : Nat     -- sizeof(dma_data_t)
  clBytes : Nat        -- AFU::CL_BYTES
  sleepWhileWaiting : Bool -- SLEEP_WHILE_WAITING
  sleepMsVal : Nat     -- SLEEP_MS
  uuid : String        -- AFU_ACCEL_UUID
  fpgaErrStr : FpgaResult → String
  rnd : ℚ → ℚ

/-- Modelled from the spec: the environment oracle standing for the AFU
wrapper, the hardware and the C library: addresses returned by the two
`afu.malloc` calls, the `rand()` stream, the successive values returned by
polling `MMIO_DONE`, the contents of the two volatile buffers as read back
during verification, the value of the reset-count register `0x0060`, and an
optional wrapper call index at which an exception is thrown. -/
structure Env where
  inputAddr : Nat
  outputAddr : Nat
  rands : Nat → Nat
  doneReads : List Nat
  inputAfter : Nat → Nat
  outputAfter : Nat → Nat
  resets : Nat
  throwAt : Option (Nat × CppExn)

def EXIT_SUCCESS : Nat := 0

def EXIT_FAILURE : Nat := 1

/-- `#define NUM_TESTS 1` in `main.cpp`. -/
def NUM_TESTS : Nat := 1

/-- The no-op step. -/
def skip : Step := fun s => (s, none)

/-- Sequential composition: the second step runs only if the first did not
stop (an exception or divergence aborts the rest of the body). -/
def seq (a b : Step) : Step := fun s =>
  match a s with
  | (s', none) => b s'
  | (s', some e) => (s', some e)

/-- Sequential composition of a list of steps. -/
def seqAll : List Step → Step
  | [] => skip
  | a :: rest => seq a (seqAll rest)

/-- Emit an event that is not an AFU wrapper call (print, assignment,
sleep, comparison): it cannot throw. -/
def emit (ev : Event) : Step := fun s => ({ s with trace := s.trace ++ [ev] }, none)

/-- Perform an AFU wrapper call: emit its event, advance the call counter,
and throw if the environment says this call index throws. -/
def afuStep (env : Env) (ev : Event) : Step := fun s =>
  let s' : St := { calls := s.calls + 1, trace := s.trace ++ [ev] }
  match env.throwAt with
  | some (k, e) => if k = s.calls then (s', some (Stop.exn e)) else (s', none)
  | none => (s', none)

/-- The initialization loop of `main.cpp`:
`for (i=0; i<DATA_AMOUNT; i++) { input[i] = (dma_data_t) rand(); output[i] = 0; }`. -/
def initLoop (env : Env) : Nat → Step
  | 0 => skip
  | n + 1 =>
    seq (initLoop env n)
      (seq (emit (Event.assignInput n (env.rands n))) (emit (Event.assignOutput n 0)))

/-- `unsigned total_bytes = DATA_AMOUNT*sizeof(dma_data_t);` (unsigned is
32-bit, hence the reduction modulo `2^32`). -/
def totalBytes (cfg : Config) : Nat := cfg.dataAmount * cfg.sizeofData % 2 ^ 32

/-- `unsigned num_cls = ceil((float) total_bytes / (float) AFU::CL_BYTES);`:
both casts and the division each round through single precision (`cfg.rnd`);
`ceil` is exact on the resulting value and the conversion to `unsigned`
truncates the non-negative integer result. -/
def numCls (cfg : Config) : Nat :=
  (⌈cfg.rnd (cfg.rnd ((totalBytes cfg : ℚ)) / cfg.rnd ((cfg.clBytes : ℚ)))⌉).toNat

/-- The body of the busy-wait loop sleeps `SLEEP_MS` milliseconds when
`SLEEP_WHILE_WAITING` is set. -/
def sleepStep (cfg : Config) : Step :=
  if cfg.sleepWhileWaiting then emit (Event.sleepMs cfg.sleepMsVal) else skip

/-- The busy-poll loop of `main.cpp`:
`while (afu.read(MMIO_DONE) == 0) { if (SLEEP_WHILE_WAITING) sleep(SLEEP_MS); }`,
driven by the list of successive read results; if the list is exhausted
without a non-zero value the loop never terminates. -/
def pollLoop (cfg : Config) (env : Env) : List Nat → Step
  | [] => fun s => (s, some Stop.diverge)
  | d :: rest =>
    seq (afuStep env (Event.mmioRead cfg.doneOff d))
      (if d = 0 then seq (sleepStep cfg) (pollLoop cfg env rest) else skip)

/-- The verification loop's error count:
`for (i=0; i<DATA_AMOUNT; i++) if (output[i] != input[i]) errors++;`. -/
def verifyErrors (env : Env) : Nat → Nat
  | 0 => 0
  | n + 1 => verifyErrors env n + (if env.outputAfter n ≠ env.inputAfter n then 1 else 0)

/-- The verification loop as a step, emitting one comparison event per
element. -/
def compareLoop (env : Env) : Nat → Step
  | 0 => skip
  | n + 1 =>
    seq (compareLoop env n)
      (emit (Event.compare n (env.outputAfter n) (env.inputAfter n)))

/-- One iteration of the test loop of `main.cpp`, in program order: two
`afu.malloc` calls, address prints, test header print, the initialization
loop, the four register writes (read address, write address, size, go), the
busy-poll loop, the verification loop, the reset-count read and print, the
conditional FAILURE print, the success print, and the two `afu.free` calls. -/
def testIteration (cfg : Config) (env : Env) (t : Nat) : Step :=
  seqAll
    [ afuStep env (Event.malloc cfg.dataAmount env.inputAddr),
      afuStep env (Event.malloc cfg.dataAmount env.outputAddr),
      emit (Event.printAddr env.inputAddr),
      emit (Event.printAddr env.outputAddr),
      emit (Event.printTest t),
      initLoop env cfg.dataAmount,
      afuStep env (Event.mmioWrite cfg.rdAddrOff env.inputAddr),
      afuStep env (Event.mmioWrite cfg.wrAddrOff env.outputAddr),
      afuStep env (Event.mmioWrite cfg.sizeOff (numCls cfg)),
      afuStep env (Event.mmioWrite cfg.goOff 1),
      pollLoop cfg env env.doneReads,
      compareLoop env cfg.dataAmount,
      afuStep env (Event.mmioRead 0x0060 env.resets),
      emit (Event.printResets env.resets),
      (if verifyErrors env cfg.dataAmount > 0
        then emit (Event.printFailure (verifyErrors env cfg.dataAmount)) else skip),
      emit Event.printSuccess,
      afuStep env (Event.free env.inputAddr),
      afuStep env (Event.free env.outputAddr) ]

/-- `for (unsigned test=0; test < NUM_TESTS; test++) { ... }`. -/
def testLoop (cfg : Config) (env : Env) : Nat → Step
  | 0 => skip
  | n + 1 => seq (testLoop cfg env n) (testIteration cfg env n)

/-- The whole `try` block of `main`: construct the AFU object, then run the
test loop, starting from the empty trace. -/
def runMain (cfg : Config) (env : Env) : St × Option Stop :=
  seq (afuStep env Event.ctor) (testLoop cfg env NUM_TESTS) { calls := 0, trace := [] }

/-- The trace of events of a run of `main`. -/
def mainTrace (cfg : Config) (env : Env) : List Event :=
  (runMain cfg env).1.trace

/-- The exit code of `main`: `EXIT_SUCCESS` when the `try` block completes,
`EXIT_FAILURE` when an exception is caught, and none when the busy-poll
loop diverges (the process never returns). -/
def exitCode (cfg : Config) (env : Env) : Option Nat :=
  match (runMain cfg env).2 with
  | none => some EXIT_SUCCESS
  | some (Stop.exn _) => some EXIT_FAILURE
  | some Stop.diverge => none

/-- The catch blocks of `main`: `fpga_result` is matched against
`FPGA_BUSY` and `FPGA_NOT_FOUND` and otherwise printed through
`fpgaErrStr`; a `runtime_error` prints `e.what()`; `no_driver` prints the
no-driver message. -/
def handleException (cfg : Config) : CppExn → String
  | CppExn.fpgaResult r =>
    if r = FpgaResult.FPGA_BUSY then "ERROR: All FPGAs busy."
    else if r = FpgaResult.FPGA_NOT_FOUND then
      "ERROR: FPGA with accelerator " ++ cfg.uuid ++ " not found."
    else "ERROR: " ++ cfg.fpgaErrStr r
  | CppExn.runtimeError msg => msg
  | CppExn.noDriver => "ERROR: No FPGA driver found."

/-- The error message printed by `main`, when an exception was caught. -/
def stderrOutput (cfg : Config) (env : Env) : Option String :=
  match (runMain cfg env).2 with
  | some (Stop.exn e) => some (handleException cfg e)
  | _ => none

/-- The events emitted by the initialization loop. -/
def initEvents (env : Env) : Nat → List Event
  | 0 => []
  | n + 1 => initEvents env n ++ [Event.assignInput n (env.rands n), Event.assignOutput n 0]

/-- The events emitted per zero poll: the read and the optional sleep. -/
def sleepEvents (cfg : Config) : List Event :=
  if cfg.sleepWhileWaiting then [Event.sleepMs cfg.sleepMsVal] else []

/-- The events emitted by the busy-poll loop on a given list of read
results (the part of the list it consumes). -/
def pollEvents (cfg : Config) : List Nat → List Event
  | [] => []
  | d :: rest =>
    Event.mmioRead cfg.doneOff d :: (if d = 0 then sleepEvents cfg ++ pollEvents cfg rest else [])

/-- The events emitted by the verification loop. -/
def compareEvents (env : Env) : Nat → List Event
  | 0 => []
  | n + 1 => compareEvents env n ++ [Event.compare n (env.outputAfter n) (env.inputAfter n)]

/-- The closed-form trace of one completing, exception-free test iteration,
where `polls` is the consumed prefix of the done-register reads. -/
def iterTrace (cfg : Config) (env : Env) (t : Nat) (polls : List Nat) : List Event :=
  [Event.malloc cfg.dataAmount env.inputAddr,
   Event.malloc cfg.dataAmount env.outputAddr,
   Event.printAddr env.inputAddr,
   Event.printAddr env.outputAddr,
   Event.printTest t] ++
  initEvents env cfg.dataAmount ++
  [Event.mmioWrite cfg.rdAddrOff env.inputAddr,
   Event.mmioWrite cfg.wrAddrOff env.outputAddr,
   Event.mmioWrite cfg.sizeOff (numCls cfg),
   Event.mmioWrite cfg.goOff 1] ++
  pollEvents cfg polls ++
  compareEvents env cfg.dataAmount ++
  [Event.mmioRead 0x0060 env.resets, Event.printResets env.resets] ++
  (if verifyErrors env cfg.dataAmount > 0
    then [Event.printFailure (verifyErrors env cfg.dataAmount)] else []) ++
  [Event.printSuccess, Event.free env.inputAddr, Event.free env.outputAddr]

/-- The MMIO offset of an event, when the event is an MMIO access. -/
def mmioAccFn : Event → Option Nat
  | Event.mmioWrite off _ => some off
  | Event.mmioRead off _ => some off
  | _ => none

/-- The MMIO offsets touched by a trace, in order, reads and writes alike. -/
def mmioAccesses (l : List Event) : List Nat := l.filterMap mmioAccFn

/-- The value of an event, when it is an MMIO write to the given offset. -/
def writeAtFn (off : Nat) : Event → Option Nat
  | Event.mmioWrite o v => if o = off then some v else none
  | _ => none

/-- The values written to a given MMIO offset by a trace, in order. -/
def writesAt (off : Nat) (l : List Event) : List Nat := l.filterMap (writeAtFn off)

/-- The value of an event, when it is an MMIO read of the given offset. -/
def readAtFn (off : Nat) : Event → Option Nat
  | Event.mmioRead o v => if o = off then some v else none
  | _ => none

/-- The values read from a given MMIO offset by a trace, in order. -/
def readsAt (off : Nat) (l : List Event) : List Nat := l.filterMap (readAtFn off)

/-- The address of an event, when it is an `afu.malloc` return. -/
def mallocAddrFn : Event → Option Nat
  | Event.malloc _ a => some a
  | _ => none

/-- The addresses returned by `afu.malloc` calls in a trace, in order. -/
def mallocAddrs (l : List Event) : List Nat := l.filterMap mallocAddrFn

/-- The address of an event, when it is an `afu.free` call. -/
def freeAddrFn : Event → Option Nat
  | Event.free a => some a
  | _ => none

/-- The addresses passed to `afu.free` calls in a trace, in order. -/
def freeAddrs (l : List Event) : List Nat := l.filterMap freeAddrFn

/-- The phase of an event, following the spec's phase list: 1 allocate,
2 program registers, 3 busy-poll the done register, 4 compare buffers,
5 free; other events (prints, buffer fills, sleeps, the reset-count read)
belong to no named phase. -/
def phaseOf (cfg : Config) : Event → Option Nat
  | Event.malloc _ _ => some 1
  | Event.mmioWrite _ _ => some 2
  | Event.mmioRead off _ => if off = cfg.doneOff then some 3 else none
  | Event.compare _ _ _ => some 4
  | Event.free _ => some 5
  | _ => none

/-- A rational is exactly representable in IEEE binary32: a significand of
magnitude below `2^24` times a power of two reaching down to `2^(-149)`. -/
def Repr32 (q : ℚ) : Prop :=
  ∃ m : ℤ, ∃ e : ℤ, |m| < 2 ^ 24 ∧ -149 ≤ e ∧ q = (m : ℚ) * (2 : ℚ) ^ e

/-- A correct single-precision rounding returns every exactly representable
value unchanged (the only IEEE 754 property the development needs). -/
def IsF32Rounding (f : ℚ → ℚ) : Prop := ∀ q, Repr32 q → f q = q

/-- A concrete representative configuration (the values of `config.h` are
not in the excerpt): distinct register offsets, two 4-byte elements,
64-byte cache lines, sleeping enabled, exact rounding. -/
def cfg0 : Config where
  rdAddrOff := 0x0050
  wrAddrOff := 0x0052
  sizeOff := 0x0054
  goOff := 0x0056
  doneOff := 0x0058
  dataAmount := 2
  sizeofData := 4
  clBytes := 64
  sleepWhileWaiting := true
  sleepMsVal := 10
  uuid := "B8E661FA-5E19-4043-B8F8-AE18A4B1E30C"
  fpgaErrStr := fun _ => "unknown error"
  rnd := id

/-- A concrete environment for a clean run: one zero poll then done,
matching buffers, no exception. -/
def env0 : Env where
  inputAddr := 0x1000
  outputAddr := 0x2000
  rands := fun i => i + 7
  doneReads := [0, 1]
  inputAfter := fun i => i + 7
  outputAfter := fun i => i + 7
  resets := 0
  throwAt := none

/-- A concrete environment whose transfer corrupted the output buffer
(every element reads back 0 while the inputs are non-zero). -/
def envMismatch : Env :=
  { env0 with outputAfter := fun _ => 0 }

/-- A concrete environment whose AFU constructor throws `FPGA_BUSY`. -/
def envThrow : Env :=
  { env0 with throwAt := some (0, CppExn.fpgaResult FpgaResult.FPGA_BUSY) }

/-- A step only appends a fixed list of events to the trace and never stops
early (the calls counter may move arbitrarily). -/
def Appends (a : Step) (evs : List Event) : Prop :=
  ∀ s : St, ∃ c : Nat, a s = (⟨c, s.trace ++ evs⟩, none)

theorem appends_congr {a : Step} {l l' : List Event} (h : Appends a l) (he : l = l') :
    Appends a l' := he ▸ h

theorem appends_skip : Appends skip [] := by
  intro s
  exact ⟨s.calls, by simp [skip]⟩

theorem appends_emit (ev : Event) : Appends (emit ev) [ev] := by
  intro s
  exact ⟨s.calls, rfl⟩

theorem appends_afuStep {env : Env} (h : env.throwAt = none) (ev : Event) :
    Appends (afuStep env ev) [ev] := by
  intro s
  exact ⟨s.calls + 1, by simp [afuStep, h]⟩

theorem appends_seq {a b : Step} {l₁ l₂ : List Event}
    (ha : Appends a l₁) (hb : Appends b l₂) : Appends (seq a b) (l₁ ++ l₂) := by
  intro s
  obtain ⟨c₁, h₁⟩ := ha s
  obtain ⟨c₂, h₂⟩ := hb ⟨c₁, s.trace ++ l₁⟩
  exact ⟨c₂, by simp [seq, h₁, h₂, List.append_assoc]⟩

theorem appends_sleepStep (cfg : Config) : Appends (sleepStep cfg) (sleepEvents cfg) := by
  unfold sleepStep sleepEvents
  by_cases h : cfg.sleepWhileWaiting
  · simp only [h, if_true]
    exact appends_emit _
  · simp only [h, if_false]
    exact appends_skip

theorem appends_initLoop (env : Env) (n : Nat) :
    Appends (initLoop env n) (initEvents env n) := by
  induction n with
  | zero => exact appends_skip
  | succ k ih =>
    have h := appends_seq ih (appends_seq (appends_emit (Event.assignInput k (env.rands k)))
      (appends_emit (Event.assignOutput k 0)))
    exact appends_congr h (by simp [initEvents])

theorem appends_compareLoop (env : Env) (n : Nat) :
    Appends (compareLoop env n) (compareEvents env n) := by
  induction n with
  | zero => exact appends_skip
  | succ k ih =>
    have h := appends_seq ih
      (appends_emit (Event.compare k (env.outputAfter k) (env.inputAfter k)))
    exact appends_congr h (by simp [compareEvents])

theorem appends_pollLoop {env : Env} (cfg : Config) (h : env.throwAt = none)
    (zeros : List Nat) (hz : ∀ x ∈ zeros, x = 0) (d : Nat) (hd : d ≠ 0) (rest : List Nat) :
    Appends (pollLoop cfg env (zeros ++ d :: rest)) (pollEvents cfg (zeros ++ [d])) := by
  induction zeros with
  | nil =>
    have hstep := appends_seq (appends_afuStep h (Event.mmioRead cfg.doneOff d)) appends_skip
    have : pollLoop cfg env ([] ++ d :: rest) =
        seq (afuStep env (Event.mmioRead cfg.doneOff d)) skip := by
      simp [pollLoop, hd]
    rw [this]
    exact appends_congr hstep (by simp [pollEvents, hd])
  | cons z zs ih =>
    have hz0 : z = 0 := hz z (List.mem_cons_self z zs)
    have ihz := ih (fun x hx => hz x (List.mem_cons_of_mem z hx))
    have hstep := appends_seq (appends_afuStep h (Event.mmioRead cfg.doneOff z))
      (appends_seq (appends_sleepStep cfg) ihz)
    have hform : pollLoop cfg env ((z :: zs) ++ d :: rest) =
        seq (afuStep env (Event.mmioRead cfg.doneOff z))
          (seq (sleepStep cfg) (pollLoop cfg env (zs ++ d :: rest))) := by
      subst hz0
      simp [pollLoop]
    rw [hform]
    refine appends_congr hstep ?_
    subst hz0
    simp [pollEvents, sleepEvents]

theorem appends_ite_emit (c : Prop) [Decidable c] (ev : Event) :
    Appends (if c then emit ev else skip) (if c then [ev] else []) := by
  by_cases h : c
  · simp only [h, if_true]
    exact appends_emit _
  · simp only [h, if_false]
    exact appends_skip

theorem appends_testIteration {env : Env} (cfg : Config) (t : Nat)
    (h : env.throwAt = none)
    (zeros : List Nat) (hz : ∀ x ∈ zeros, x = 0) (d : Nat) (hd : d ≠ 0) (rest : List Nat)
    (hsplit : env.doneReads = zeros ++ d :: rest) :
    Appends (testIteration cfg env t) (iterTrace cfg env t (zeros ++ [d])) := by
  have hall :=
    appends_seq (appends_afuStep h (Event.malloc cfg.dataAmount env.inputAddr))
    (appends_seq (appends_afuStep h (Event.malloc cfg.dataAmount env.outputAddr))
    (appends_seq (appends_emit (Event.printAddr env.inputAddr))
    (appends_seq (appends_emit (Event.printAddr env.outputAddr))
    (appends_seq (appends_emit (Event.printTest t))
    (appends_seq (appends_initLoop env cfg.dataAmount)
    (appends_seq (appends_afuStep h (Event.mmioWrite cfg.rdAddrOff env.inputAddr))
    (appends_seq (appends_afuStep h (Event.mmioWrite cfg.wrAddrOff env.outputAddr))
    (appends_seq (appends_afuStep h (Event.mmioWrite cfg.sizeOff (numCls cfg)))
    (appends_seq (appends_afuStep h (Event.mmioWrite cfg.goOff 1))
    (appends_seq (appends_pollLoop cfg h zeros hz d hd rest)
    (appends_seq (appends_compareLoop env cfg.dataAmount)
    (appends_seq (appends_afuStep h (Event.mmioRead 0x0060 env.resets))
    (appends_seq (appends_emit (Event.printResets env.resets))
    (appends_seq (appends_ite_emit (verifyErrors env cfg.dataAmount > 0)
      (Event.printFailure (verifyErrors env cfg.dataAmount)))
    (appends_seq (appends_emit Event.printSuccess)
    (appends_seq (appends_afuStep h (Event.free env.inputAddr))
    (appends_seq (appends_afuStep h (Event.free env.outputAddr))
      appends_skip)))))))))))))))))
  have hshape : testIteration cfg env t =
      seq (afuStep env (Event.malloc cfg.dataAmount env.inputAddr))
      (seq (afuStep env (Event.malloc cfg.dataAmount env.outputAddr))
      (seq (emit (Event.printAddr env.inputAddr))
      (seq (emit (Event.printAddr env.outputAddr))
      (seq (emit (Event.printTest t))
      (seq (initLoop env cfg.dataAmount)
      (seq (afuStep env (Event.mmioWrite cfg.rdAddrOff env.inputAddr))
      (seq (afuStep env (Event.mmioWrite cfg.wrAddrOff env.outputAddr))
      (seq (afuStep env (Event.mmioWrite cfg.sizeOff (numCls cfg)))
      (seq (afuStep env (Event.mmioWrite cfg.goOff 1))
      (seq (pollLoop cfg env env.doneReads)
      (seq (compareLoop env cfg.dataAmount)
      (seq (afuStep env (Event.mmioRead 0x0060 env.resets))
      (seq (emit (Event.printResets env.resets))
      (seq (if verifyErrors env cfg.dataAmount > 0
              then emit (Event.printFailure (verifyErrors env cfg.dataAmount)) else skip)
      (seq (emit Event.printSuccess)
      (seq (afuStep env (Event.free env.inputAddr))
      (seq (afuStep env (Event.free env.outputAddr))
        skip))))))))))))))))) := rfl
  rw [hshape, hsplit]
  refine appends_congr hall ?_
  simp only [iterTrace]
  by_cases hv : verifyErrors env cfg.dataAmount > 0 <;>
    simp [hv, List.append_assoc]

theorem runMain_closed {env : Env} (cfg : Config)
    (h : env.throwAt = none)
    (zeros : List Nat) (hz : ∀ x ∈ zeros, x = 0) (d : Nat) (hd : d ≠ 0) (rest : List Nat)
    (hsplit : env.doneReads = zeros ++ d :: rest) :
    mainTrace cfg env = Event.ctor :: iterTrace cfg env 0 (zeros ++ [d]) ∧
      (runMain cfg env).2 = none := by
  have hiter := appends_testIteration cfg 0 h zeros hz d hd rest hsplit
  have hloop : Appends (testLoop cfg env NUM_TESTS)
      ([] ++ iterTrace cfg env 0 (zeros ++ [d])) := by
    have : testLoop cfg env NUM_TESTS = seq skip (testIteration cfg env 0) := by
      simp [NUM_TESTS, testLoop]
    rw [this]
    exact appends_seq appends_skip hiter
  have hmain := appends_seq (appends_afuStep h Event.ctor) hloop
  obtain ⟨c, hc⟩ := hmain ⟨0, []⟩
  have hrun : runMain cfg env =
      (⟨c, [] ++ ([Event.ctor] ++ ([] ++ iterTrace cfg env 0 (zeros ++ [d])))⟩, none) := hc
  constructor
  · simp [mainTrace, hrun]
  · simp [hrun]

theorem initEvents_filterMap_eq_nil {β : Type} (env : Env) (n : Nat) (f : Event → Option β)
    (h1 : ∀ i v, f (Event.assignInput i v) = none)
    (h2 : ∀ i v, f (Event.assignOutput i v) = none) :
    (initEvents env n).filterMap f = [] := by
  induction n with
  | zero => rfl
  | succ k ih => simp [initEvents, List.filterMap_append, ih, h1, h2]

theorem mem_initEvents_of_lt (env : Env) {i n : Nat} (h : i < n) :
    Event.assignInput i (env.rands i) ∈ initEvents env n ∧
      Event.assignOutput i 0 ∈ initEvents env n := by
  induction n with
  | zero => exact absurd h (Nat.not_lt_zero i)
  | succ k ih =>
    rcases Nat.lt_succ_iff_lt_or_eq.mp h with h' | h'
    · obtain ⟨ha, hb⟩ := ih h'
      constructor <;> simp [initEvents, ha, hb]
    · subst h'
      constructor <;> simp [initEvents]

theorem printFailure_not_mem_initEvents (env : Env) (n er : Nat) :
    Event.printFailure er ∉ initEvents env n := by
  induction n with
  | zero => simp [initEvents]
  | succ k ih => simp [initEvents, ih]

theorem compareEvents_filterMap_eq_nil {β : Type} (env : Env) (n : Nat) (f : Event → Option β)
    (h : ∀ i a b, f (Event.compare i a b) = none) :
    (compareEvents env n).filterMap f = [] := by
  induction n with
  | zero => rfl
  | succ k ih => simp [compareEvents, List.filterMap_append, ih, h]

theorem compareEvents_filterMap_phase (cfg : Config) (env : Env) (n : Nat) :
    (compareEvents env n).filterMap (phaseOf cfg) = List.replicate n 4 := by
  induction n with
  | zero => rfl
  | succ k ih =>
    simp [compareEvents, List.filterMap_append, ih, phaseOf, List.replicate_succ']

theorem printFailure_not_mem_compareEvents (env : Env) (n er : Nat) :
    Event.printFailure er ∉ compareEvents env n := by
  induction n with
  | zero => simp [compareEvents]
  | succ k ih => simp [compareEvents, ih]

theorem pollEvents_filterMap_eq_nil {β : Type} (cfg : Config) (f : Event → Option β)
    (hr : ∀ x, f (Event.mmioRead cfg.doneOff x) = none)
    (hs : ∀ ms, f (Event.sleepMs ms) = none) :
    ∀ l : List Nat, (pollEvents cfg l).filterMap f = [] := by
  intro l
  induction l with
  | nil => rfl
  | cons d rest ih =>
    by_cases hd : d = 0
    · subst hd
      by_cases hw : cfg.sleepWhileWaiting <;>
        simp [pollEvents, sleepEvents, hr, hs, hw, ih]
    · simp [pollEvents, hd, hr]

theorem pollEvents_filterMap_map {β : Type} (cfg : Config) (f : Event → Option β) (g : Nat → β)
    (hr : ∀ x, f (Event.mmioRead cfg.doneOff x) = some (g x))
    (hs : ∀ ms, f (Event.sleepMs ms) = none)
    (zeros : List Nat) (hz : ∀ x ∈ zeros, x = 0) (d : Nat) (hd : d ≠ 0) :
    (pollEvents cfg (zeros ++ [d])).filterMap f = (zeros ++ [d]).map g := by
  induction zeros with
  | nil => simp [pollEvents, hd, hr]
  | cons z zs ih =>
    have hz0 : z = 0 := hz z (List.mem_cons_self z zs)
    have ihz := ih (fun x hx => hz x (List.mem_cons_of_mem z hx))
    subst hz0
    by_cases hw : cfg.sleepWhileWaiting <;>
      simp [pollEvents, sleepEvents, hr, hs, hw, ihz]

theorem printFailure_not_mem_pollEvents (cfg : Config) (er : Nat) :
    ∀ l : List Nat, Event.printFailure er ∉ pollEvents cfg l := by
  intro l
  induction l with
  | nil => simp [pollEvents]
  | cons d rest ih =>
    by_cases hd : d = 0
    · subst hd
      by_cases hw : cfg.sleepWhileWaiting <;>
        simp [pollEvents, sleepEvents, hw, ih]
    · simp [pollEvents, hd]

theorem pollEvents_eq_flatMap (cfg : Config) (zeros : List Nat) (hz : ∀ x ∈ zeros, x = 0)
    (d : Nat) (hd : d ≠ 0) :
    pollEvents cfg (zeros ++ [d]) =
      zeros.flatMap (fun z => Event.mmioRead cfg.doneOff z :: sleepEvents cfg) ++
        [Event.mmioRead cfg.doneOff d] := by
  induction zeros with
  | nil => simp [pollEvents, hd]
  | cons z zs ih =>
    have hz0 : z = 0 := hz z (List.mem_cons_self z zs)
    have ihz := ih (fun x hx => hz x (List.mem_cons_of_mem z hx))
    subst hz0
    simp [pollEvents, ihz]

theorem filterMap_writeAtFn_initEvents (off : Nat) (env : Env) (n : Nat) :
    (initEvents env n).filterMap (writeAtFn off) = [] :=
  initEvents_filterMap_eq_nil env n (writeAtFn off) (fun _ _ => rfl) (fun _ _ => rfl)

theorem filterMap_writeAtFn_pollEvents (cfg : Config) (off : Nat) (l : List Nat) :
    (pollEvents cfg l).filterMap (writeAtFn off) = [] :=
  pollEvents_filterMap_eq_nil cfg (writeAtFn off) (fun _ => rfl) (fun _ => rfl) l

theorem filterMap_writeAtFn_compareEvents (off : Nat) (env : Env) (n : Nat) :
    (compareEvents env n).filterMap (writeAtFn off) = [] :=
  compareEvents_filterMap_eq_nil env n (writeAtFn off) (fun _ _ _ => rfl)

theorem filterMap_readAtFn_initEvents (off : Nat) (env : Env) (n : Nat) :
    (initEvents env n).filterMap (readAtFn off) = [] :=
  initEvents_filterMap_eq_nil env n (readAtFn off) (fun _ _ => rfl) (fun _ _ => rfl)

theorem filterMap_readAtFn_compareEvents (off : Nat) (env : Env) (n : Nat) :
    (compareEvents env n).filterMap (readAtFn off) = [] :=
  compareEvents_filterMap_eq_nil env n (readAtFn off) (fun _ _ _ => rfl)

theorem filterMap_readAtFn_pollEvents (cfg : Config) (zeros : List Nat)
    (hz : ∀ x ∈ zeros, x = 0) (d : Nat) (hd : d ≠ 0) :
    (pollEvents cfg (zeros ++ [d])).filterMap (readAtFn cfg.doneOff) = zeros ++ [d] := by
  have h := pollEvents_filterMap_map cfg (readAtFn cfg.doneOff) (fun y => y)
    (fun _ => by simp [readAtFn]) (fun _ => rfl) zeros hz d hd
  simpa using h

theorem filterMap_readAtFn_pollEvents_ne (cfg : Config) (off : Nat)
    (hne : off ≠ cfg.doneOff) (l : List Nat) :
    (pollEvents cfg l).filterMap (readAtFn off) = [] :=
  pollEvents_filterMap_eq_nil cfg (readAtFn off)
    (fun _ => by simp [readAtFn, Ne.symm hne]) (fun _ => rfl) l

theorem filterMap_mallocAddrFn_initEvents (env : Env) (n : Nat) :
    (initEvents env n).filterMap mallocAddrFn = [] :=
  initEvents_filterMap_eq_nil env n mallocAddrFn (fun _ _ => rfl) (fun _ _ => rfl)

theorem filterMap_mallocAddrFn_pollEvents (cfg : Config) (l : List Nat) :
    (pollEvents cfg l).filterMap mallocAddrFn = [] :=
  pollEvents_filterMap_eq_nil cfg mallocAddrFn (fun _ => rfl) (fun _ => rfl) l

theorem filterMap_mallocAddrFn_compareEvents (env : Env) (n : Nat) :
    (compareEvents env n).filterMap mallocAddrFn = [] :=
  compareEvents_filterMap_eq_nil env n mallocAddrFn (fun _ _ _ => rfl)

theorem filterMap_freeAddrFn_initEvents (env : Env) (n : Nat) :
    (initEvents env n).filterMap freeAddrFn = [] :=
  initEvents_filterMap_eq_nil env n freeAddrFn (fun _ _ => rfl) (fun _ _ => rfl)

theorem filterMap_freeAddrFn_pollEvents (cfg : Config) (l : List Nat) :
    (pollEvents cfg l).filterMap freeAddrFn = [] :=
  pollEvents_filterMap_eq_nil cfg freeAddrFn (fun _ => rfl) (fun _ => rfl) l

theorem filterMap_freeAddrFn_compareEvents (env : Env) (n : Nat) :
    (compareEvents env n).filterMap freeAddrFn = [] :=
  compareEvents_filterMap_eq_nil env n freeAddrFn (fun _ _ _ => rfl)

theorem filterMap_mmioAccFn_initEvents (env : Env) (n : Nat) :
    (initEvents env n).filterMap mmioAccFn = [] :=
  initEvents_filterMap_eq_nil env n mmioAccFn (fun _ _ => rfl) (fun _ _ => rfl)

theorem filterMap_mmioAccFn_compareEvents (env : Env) (n : Nat) :
    (compareEvents env n).filterMap mmioAccFn = [] :=
  compareEvents_filterMap_eq_nil env n mmioAccFn (fun _ _ _ => rfl)

theorem filterMap_mmioAccFn_pollEvents (cfg : Config) (zeros : List Nat)
    (hz : ∀ x ∈ zeros, x = 0) (d : Nat) (hd : d ≠ 0) :
    (pollEvents cfg (zeros ++ [d])).filterMap mmioAccFn =
      List.replicate (zeros.length + 1) cfg.doneOff := by
  have h := pollEvents_filterMap_map cfg mmioAccFn (fun _ => cfg.doneOff)
    (fun _ => rfl) (fun _ => rfl) zeros hz d hd
  rw [h]
  simp only [List.eq_replicate_iff, List.length_map, List.length_append,
    List.length_cons, List.length_nil, List.mem_map]
  constructor
  · trivial
  · intro b hb
    obtain ⟨x, -, hx⟩ := hb
    exact hx.symm

theorem filterMap_phaseOf_initEvents (cfg : Config) (env : Env) (n : Nat) :
    (initEvents env n).filterMap (phaseOf cfg) = [] :=
  initEvents_filterMap_eq_nil env n (phaseOf cfg) (fun _ _ => rfl) (fun _ _ => rfl)

theorem filterMap_phaseOf_pollEvents (cfg : Config) (zeros : List Nat)
    (hz : ∀ x ∈ zeros, x = 0) (d : Nat) (hd : d ≠ 0) :
    (pollEvents cfg (zeros ++ [d])).filterMap (phaseOf cfg) =
      List.replicate (zeros.length + 1) 3 := by
  have h := pollEvents_filterMap_map cfg (phaseOf cfg) (fun _ => 3)
    (fun _ => by simp [phaseOf]) (fun _ => rfl) zeros hz d hd
  rw [h]
  simp only [List.eq_replicate_iff, List.length_map, List.length_append,
    List.length_cons, List.length_nil, List.mem_map]
  constructor
  · trivial
  · intro b hb
    obtain ⟨x, -, hx⟩ := hb
    exact hx.symm

theorem verifyErrors_eq_count (env : Env) (n : Nat) :
    verifyErrors env n =
      ((List.range n).filter (fun i => env.outputAfter i ≠ env.inputAfter i)).length := by
  induction n with
  | zero => rfl
  | succ k ih =>
    rw [List.range_succ]
    by_cases h : env.outputAfter k ≠ env.inputAfter k <;>
      simp [verifyErrors, List.filter_append, ih, h]

/-- Claim C2: after the polling loop exits, the verification step computes
`errors` as exactly the number of indices `i` with `0 ≤ i < DATA_AMOUNT`
such that `output[i] != input[i]`, and the transfer is reported as failed
(the FAILURE line is printed) if and only if `errors > 0`: the check
performed is precisely that the output buffer equals the input buffer. -/
theorem c2_verification_counts_mismatches (cfg : Config) (env : Env)
    (h : env.throwAt = none) (zeros : List Nat) (hz : ∀ x ∈ zeros, x = 0)
    (d : Nat) (hd : d ≠ 0) (rest : List Nat)
    (hsplit : env.doneReads = zeros ++ d :: rest) :
    verifyErrors env cfg.dataAmount =
      ((List.range cfg.dataAmount).filter
        (fun i => env.outputAfter i ≠ env.inputAfter i)).length ∧
    (0 < verifyErrors env cfg.dataAmount ↔
      Event.printFailure (verifyErrors env cfg.dataAmount) ∈ mainTrace cfg env) := by
  obtain ⟨htr, -⟩ := runMain_closed cfg h zeros hz d hd rest hsplit
  refine ⟨verifyErrors_eq_count env cfg.dataAmount, ?_, ?_⟩
  · intro hv
    simp [htr, iterTrace, hv]
  · intro hmem
    by_contra hv
    have hv0 : verifyErrors env cfg.dataAmount = 0 := Nat.eq_zero_of_not_pos hv
    simp [htr, iterTrace, hv0, printFailure_not_mem_initEvents,
      printFailure_not_mem_pollEvents, printFailure_not_mem_compareEvents] at hmem

/-- Claim C9: for every execution in which no exception is thrown (and the
polling loop terminates), `main` returns `EXIT_SUCCESS` and prints the
success line for its iteration, even when the element-wise comparison found
`errors > 0`: the mismatch only adds the FAILURE message and does not
change the exit code. -/
theorem c9_no_exception_exits_success (cfg : Config) (env : Env)
    (h : env.throwAt = none) (zeros : List Nat) (hz : ∀ x ∈ zeros, x = 0)
    (d : Nat) (hd : d ≠ 0) (rest : List Nat)
    (hsplit : env.doneReads = zeros ++ d :: rest) :
    exitCode cfg env = some EXIT_SUCCESS ∧
    Event.printSuccess ∈ mainTrace cfg env ∧
    (0 < verifyErrors env cfg.dataAmount →
      Event.printFailure (verifyErrors env cfg.dataAmount) ∈ mainTrace cfg env ∧
        exitCode cfg env ≠ some EXIT_FAILURE) := by
  obtain ⟨htr, hres⟩ := runMain_closed cfg h zeros hz d hd rest hsplit
  have hexit : exitCode cfg env = some EXIT_SUCCESS := by
    simp [exitCode, hres]
  refine ⟨hexit, ?_, fun hv => ⟨?_, ?_⟩⟩
  · simp [htr, iterTrace]
  · simp [htr, iterTrace, hv]
  · rw [hexit]
    simp [EXIT_SUCCESS, EXIT_FAILURE]

/-- Claim C4: after writing `MMIO_GO`, `main` busy-waits on the completion
register: the consumed done-register reads are the zeros followed by one
non-zero read, the verification (comparison) events all come after that
final non-zero read, each zero read is followed by a sleep of `SLEEP_MS`
milliseconds exactly when `SLEEP_WHILE_WAITING` is set, and no done-register
read happens before the polling phase. -/
theorem c4_busy_wait_on_done (cfg : Config) (env : Env)
    (h : env.throwAt = none) (zeros : List Nat) (hz : ∀ x ∈ zeros, x = 0)
    (d : Nat) (hd : d ≠ 0) (rest : List Nat)
    (hsplit : env.doneReads = zeros ++ d :: rest) :
    ∃ pre post,
      mainTrace cfg env =
        pre ++
          (zeros.flatMap (fun z =>
              Event.mmioRead cfg.doneOff z ::
                (if cfg.sleepWhileWaiting then [Event.sleepMs cfg.sleepMsVal] else [])) ++
            [Event.mmioRead cfg.doneOff d]) ++
          compareEvents env cfg.dataAmount ++ post ∧
      readsAt cfg.doneOff pre = [] := by
  obtain ⟨htr, -⟩ := runMain_closed cfg h zeros hz d hd rest hsplit
  refine ⟨Event.ctor ::
      ([Event.malloc cfg.dataAmount env.inputAddr,
        Event.malloc cfg.dataAmount env.outputAddr,
        Event.printAddr env.inputAddr,
        Event.printAddr env.outputAddr,
        Event.printTest 0] ++
       initEvents env cfg.dataAmount ++
       [Event.mmioWrite cfg.rdAddrOff env.inputAddr,
        Event.mmioWrite cfg.wrAddrOff env.outputAddr,
        Event.mmioWrite cfg.sizeOff (numCls cfg),
        Event.mmioWrite cfg.goOff 1]),
    [Event.mmioRead 0x0060 env.resets, Event.printResets env.resets] ++
      (if verifyErrors env cfg.dataAmount > 0
        then [Event.printFailure (verifyErrors env cfg.dataAmount)] else []) ++
      [Event.printSuccess, Event.free env.inputAddr, Event.free env.outputAddr],
    ?_, ?_⟩
  · rw [htr, iterTrace, pollEvents_eq_flatMap cfg zeros hz d hd]
    simp [sleepEvents, List.append_assoc]
  · simp [readsAt, readAtFn, List.filterMap_append, filterMap_readAtFn_initEvents]

/-- Claim C10: in every test iteration (of a completing, exception-free
run), before `MMIO_GO` is written every element of the output buffer has
been set to 0 and every element of the input buffer has been set to its
`rand()` value: the trace splits at the single go write (which writes 1),
and all `DATA_AMOUNT` assignments of both buffers lie strictly before it. -/
theorem c10_buffers_initialized_before_go (cfg : Config) (env : Env)
    (h : env.throwAt = none) (zeros : List Nat) (hz : ∀ x ∈ zeros, x = 0)
    (d : Nat) (hd : d ≠ 0) (rest : List Nat)
    (hsplit : env.doneReads = zeros ++ d :: rest)
    (hg1 : cfg.goOff ≠ cfg.rdAddrOff) (hg2 : cfg.goOff ≠ cfg.wrAddrOff)
    (hg3 : cfg.goOff ≠ cfg.sizeOff) :
    ∃ pre post,
      mainTrace cfg env = pre ++ Event.mmioWrite cfg.goOff 1 :: post ∧
      (∀ i, i < cfg.dataAmount →
        Event.assignInput i (env.rands i) ∈ pre ∧ Event.assignOutput i 0 ∈ pre) ∧
      writesAt cfg.goOff (mainTrace cfg env) = [1] := by
  obtain ⟨htr, -⟩ := runMain_closed cfg h zeros hz d hd rest hsplit
  refine ⟨Event.ctor ::
      ([Event.malloc cfg.dataAmount env.inputAddr,
        Event.malloc cfg.dataAmount env.outputAddr,
        Event.printAddr env.inputAddr,
        Event.printAddr env.outputAddr,
        Event.printTest 0] ++
       initEvents env cfg.dataAmount ++
       [Event.mmioWrite cfg.rdAddrOff env.inputAddr,
        Event.mmioWrite cfg.wrAddrOff env.outputAddr,
        Event.mmioWrite cfg.sizeOff (numCls cfg)]),
    pollEvents cfg (zeros ++ [d]) ++ compareEvents env cfg.dataAmount ++
      [Event.mmioRead 0x0060 env.resets, Event.printResets env.resets] ++
      (if verifyErrors env cfg.dataAmount > 0
        then [Event.printFailure (verifyErrors env cfg.dataAmount)] else []) ++
      [Event.printSuccess, Event.free env.inputAddr, Event.free env.outputAddr],
    ?_, ?_, ?_⟩
  · rw [htr, iterTrace]
    simp [List.append_assoc]
  · intro i hi
    obtain ⟨ha, hb⟩ := mem_initEvents_of_lt env hi
    constructor <;> simp [ha, hb]
  · rw [htr, iterTrace]
    by_cases hv : verifyErrors env cfg.dataAmount > 0 <;>
      simp [hv, writesAt, writeAtFn, List.filterMap_append,
        filterMap_writeAtFn_initEvents, filterMap_writeAtFn_pollEvents,
        filterMap_writeAtFn_compareEvents, Ne.symm hg1, Ne.symm hg2, Ne.symm hg3]

/-- Claim C7: in every test iteration that completes without an exception,
exactly the two buffers (input then output, each of `DATA_AMOUNT` elements)
are allocated via `afu.malloc` right at the start, and both are released
via `afu.free` as the final two actions of the iteration, so no buffer
outlives its iteration. -/
theorem c7_malloc_free_pairing (cfg : Config) (env : Env)
    (h : env.throwAt = none) (zeros : List Nat) (hz : ∀ x ∈ zeros, x = 0)
    (d : Nat) (hd : d ≠ 0) (rest : List Nat)
    (hsplit : env.doneReads = zeros ++ d :: rest) :
    mallocAddrs (mainTrace cfg env) = [env.inputAddr, env.outputAddr] ∧
    freeAddrs (mainTrace cfg env) = [env.inputAddr, env.outputAddr] ∧
    (mainTrace cfg env).take 3 =
      [Event.ctor, Event.malloc cfg.dataAmount env.inputAddr,
        Event.malloc cfg.dataAmount env.outputAddr] ∧
    ∃ pre, mainTrace cfg env =
      pre ++ [Event.free env.inputAddr, Event.free env.outputAddr] := by
  obtain ⟨htr, -⟩ := runMain_closed cfg h zeros hz d hd rest hsplit
  refine ⟨?_, ?_, ?_, ?_⟩
  · rw [htr, iterTrace]
    by_cases hv : verifyErrors env cfg.dataAmount > 0 <;>
      simp [hv, mallocAddrs, mallocAddrFn, List.filterMap_append,
        filterMap_mallocAddrFn_initEvents, filterMap_mallocAddrFn_pollEvents,
        filterMap_mallocAddrFn_compareEvents]
  · rw [htr, iterTrace]
    by_cases hv : verifyErrors env cfg.dataAmount > 0 <;>
      simp [hv, freeAddrs, freeAddrFn, List.filterMap_append,
        filterMap_freeAddrFn_initEvents, filterMap_freeAddrFn_pollEvents,
        filterMap_freeAddrFn_compareEvents]
  · rw [htr]
    rfl
  · refine ⟨Event.ctor ::
      ([Event.malloc cfg.dataAmount env.inputAddr,
        Event.malloc cfg.dataAmount env.outputAddr,
        Event.printAddr env.inputAddr,
        Event.printAddr env.outputAddr,
        Event.printTest 0] ++
       initEvents env cfg.dataAmount ++
       [Event.mmioWrite cfg.rdAddrOff env.inputAddr,
        Event.mmioWrite cfg.wrAddrOff env.outputAddr,
        Event.mmioWrite cfg.sizeOff (numCls cfg),
        Event.mmioWrite cfg.goOff 1] ++
       pollEvents cfg (zeros ++ [d]) ++ compareEvents env cfg.dataAmount ++
       [Event.mmioRead 0x0060 env.resets, Event.printResets env.resets] ++
       (if verifyErrors env cfg.dataAmount > 0
         then [Event.printFailure (verifyErrors env cfg.dataAmount)] else []) ++
       [Event.printSuccess]), ?_⟩
    rw [htr, iterTrace]
    simp [List.append_assoc]

/-- Claim C3: every completing, exception-free test iteration performs its
phases in strict order: allocate the two buffers (phase 1), program the
four accelerator registers (phase 2), busy-poll the completion flag
(phase 3), compare the buffers (phase 4), free the two buffers (phase 5):
projecting the trace onto phases yields exactly the two allocations, the
four register writes, the polls, the `DATA_AMOUNT` comparisons and the two
frees, in that order. -/
theorem c3_phases_in_strict_order (cfg : Config) (env : Env)
    (h : env.throwAt = none) (zeros : List Nat) (hz : ∀ x ∈ zeros, x = 0)
    (d : Nat) (hd : d ≠ 0) (rest : List Nat)
    (hsplit : env.doneReads = zeros ++ d :: rest)
    (h60 : cfg.doneOff ≠ 0x0060) :
    (mainTrace cfg env).filterMap (phaseOf cfg) =
      [1, 1] ++ [2, 2, 2, 2] ++ List.replicate (zeros.length + 1) 3 ++
        List.replicate cfg.dataAmount 4 ++ [5, 5] := by
  obtain ⟨htr, -⟩ := runMain_closed cfg h zeros hz d hd rest hsplit
  have h60' : ¬((0x0060 : Nat) = cfg.doneOff) := fun hh => h60 hh.symm
  rw [htr, iterTrace]
  by_cases hv : verifyErrors env cfg.dataAmount > 0 <;>
    simp [hv, List.filterMap_append, filterMap_phaseOf_initEvents,
      filterMap_phaseOf_pollEvents cfg zeros hz d hd,
      compareEvents_filterMap_phase, phaseOf, h60']

/-- Claim C5 counterexample: the claim that the set of MMIO offsets
accessed is exactly the five named registers is false on the code: with
the representative configuration, offset `0x0060` (the reset-count
register) is also read, and it is none of the five named offsets. -/
theorem c5_counterexample :
    (0x0060 : Nat) ∈ mmioAccesses (mainTrace cfg0 env0) ∧
    (0x0060 : Nat) ∉
      [cfg0.rdAddrOff, cfg0.wrAddrOff, cfg0.sizeOff, cfg0.goOff, cfg0.doneOff] := by
  obtain ⟨htr, -⟩ := runMain_closed cfg0 (rfl : env0.throwAt = none) [0] (by decide) 1 (by decide) [] rfl
  constructor
  · have hev : Event.mmioRead 0x0060 env0.resets ∈ mainTrace cfg0 env0 := by
      rw [htr]
      simp [iterTrace]
    simp only [mmioAccesses]
    exact List.mem_filterMap.mpr ⟨Event.mmioRead 0x0060 env0.resets, hev, rfl⟩
  · decide

/-- Claim C5 (amended): in a completing, exception-free iteration, and with
the five configured register offsets and the literal `0x0060` pairwise
distinct, the MMIO offsets accessed are exactly the read-address,
write-address, size and go registers (each written once, with the input
buffer address, output buffer address, cache-line count and 1
respectively), the done register (read-only, polled), and additionally the
reset-count register `0x0060` (read once): the five named offsets alone do
not account for all MMIO traffic. -/
theorem c5_mmio_offsets_amended (cfg : Config) (env : Env)
    (h : env.throwAt = none) (zeros : List Nat) (hz : ∀ x ∈ zeros, x = 0)
    (d : Nat) (hd : d ≠ 0) (rest : List Nat)
    (hsplit : env.doneReads = zeros ++ d :: rest)
    (hnd : List.Nodup
      [cfg.rdAddrOff, cfg.wrAddrOff, cfg.sizeOff, cfg.goOff, cfg.doneOff, 0x0060]) :
    mmioAccesses (mainTrace cfg env) =
      [cfg.rdAddrOff, cfg.wrAddrOff, cfg.sizeOff, cfg.goOff] ++
        List.replicate (zeros.length + 1) cfg.doneOff ++ [0x0060] ∧
    writesAt cfg.rdAddrOff (mainTrace cfg env) = [env.inputAddr] ∧
    writesAt cfg.wrAddrOff (mainTrace cfg env) = [env.outputAddr] ∧
    writesAt cfg.sizeOff (mainTrace cfg env) = [numCls cfg] ∧
    writesAt cfg.goOff (mainTrace cfg env) = [1] ∧
    writesAt cfg.doneOff (mainTrace cfg env) = [] ∧
    writesAt 0x0060 (mainTrace cfg env) = [] ∧
    readsAt cfg.doneOff (mainTrace cfg env) = zeros ++ [d] ∧
    readsAt 0x0060 (mainTrace cfg env) = [env.resets] := by
  obtain ⟨htr, -⟩ := runMain_closed cfg h zeros hz d hd rest hsplit
  simp only [List.nodup_cons, List.mem_cons, List.mem_singleton,
    List.not_mem_nil, or_false, not_or, List.nodup_nil, and_true] at hnd
  obtain ⟨⟨h12, h13, h14, h15, h16⟩, ⟨h23, h24, h25, h26⟩, ⟨h34, h35, h36⟩,
    ⟨h45, h46⟩, h56, -⟩ := hnd
  refine ⟨?_, ?_, ?_, ?_, ?_, ?_, ?_, ?_, ?_⟩ <;> rw [htr, iterTrace] <;>
    by_cases hv : verifyErrors env cfg.dataAmount > 0
  · simp [hv, mmioAccesses, mmioAccFn, List.filterMap_append,
      filterMap_mmioAccFn_initEvents, filterMap_mmioAccFn_compareEvents,
      filterMap_mmioAccFn_pollEvents cfg zeros hz d hd]
  · simp [hv, mmioAccesses, mmioAccFn, List.filterMap_append,
      filterMap_mmioAccFn_initEvents, filterMap_mmioAccFn_compareEvents,
      filterMap_mmioAccFn_pollEvents cfg zeros hz d hd]
  · simp [hv, writesAt, writeAtFn, List.filterMap_append,
      filterMap_writeAtFn_initEvents, filterMap_writeAtFn_pollEvents,
      filterMap_writeAtFn_compareEvents, Ne.symm h12, Ne.symm h13, Ne.symm h14]
  · simp [hv, writesAt, writeAtFn, List.filterMap_append,
      filterMap_writeAtFn_initEvents, filterMap_writeAtFn_pollEvents,
      filterMap_writeAtFn_compareEvents, Ne.symm h12, Ne.symm h13, Ne.symm h14]
  · simp [hv, writesAt, writeAtFn, List.filterMap_append,
      filterMap_writeAtFn_initEvents, filterMap_writeAtFn_pollEvents,
      filterMap_writeAtFn_compareEvents, h12, Ne.symm h23, Ne.symm h24]
  · simp [hv, writesAt, writeAtFn, List.filterMap_append,
      filterMap_writeAtFn_initEvents, filterMap_writeAtFn_pollEvents,
      filterMap_writeAtFn_compareEvents, h12, Ne.symm h23, Ne.symm h24]
  · simp [hv, writesAt, writeAtFn, List.filterMap_append,
      filterMap_writeAtFn_initEvents, filterMap_writeAtFn_pollEvents,
      filterMap_writeAtFn_compareEvents, h13, h23, Ne.symm h34]
  · simp [hv, writesAt, writeAtFn, List.filterMap_append,
      filterMap_writeAtFn_initEvents, filterMap_writeAtFn_pollEvents,
      filterMap_writeAtFn_compareEvents, h13, h23, Ne.symm h34]
  · simp [hv, writesAt, writeAtFn, List.filterMap_append,
      filterMap_writeAtFn_initEvents, filterMap_writeAtFn_pollEvents,
      filterMap_writeAtFn_compareEvents, h14, h24, h34]
  · simp [hv, writesAt, writeAtFn, List.filterMap_append,
      filterMap_writeAtFn_initEvents, filterMap_writeAtFn_pollEvents,
      filterMap_writeAtFn_compareEvents, h14, h24, h34]
  · simp [hv, writesAt, writeAtFn, List.filterMap_append,
      filterMap_writeAtFn_initEvents, filterMap_writeAtFn_pollEvents,
      filterMap_writeAtFn_compareEvents, h15, h25, h35, h45]
  · simp [hv, writesAt, writeAtFn, List.filterMap_append,
      filterMap_writeAtFn_initEvents, filterMap_writeAtFn_pollEvents,
      filterMap_writeAtFn_compareEvents, h15, h25, h35, h45]
  · simp [hv, writesAt, writeAtFn, List.filterMap_append,
      filterMap_writeAtFn_initEvents, filterMap_writeAtFn_pollEvents,
      filterMap_writeAtFn_compareEvents, h16, h26, h36, h46]
  · simp [hv, writesAt, writeAtFn, List.filterMap_append,
      filterMap_writeAtFn_initEvents, filterMap_writeAtFn_pollEvents,
      filterMap_writeAtFn_compareEvents, h16, h26, h36, h46]
  · simp [hv, readsAt, readAtFn, List.filterMap_append,
      filterMap_readAtFn_initEvents, filterMap_readAtFn_compareEvents,
      filterMap_readAtFn_pollEvents cfg zeros hz d hd, Ne.symm h56]
  · simp [hv, readsAt, readAtFn, List.filterMap_append,
      filterMap_readAtFn_initEvents, filterMap_readAtFn_compareEvents,
      filterMap_readAtFn_pollEvents cfg zeros hz d hd, Ne.symm h56]
  · simp [hv, readsAt, readAtFn, List.filterMap_append,
      filterMap_readAtFn_initEvents, filterMap_readAtFn_compareEvents,
      filterMap_readAtFn_pollEvents_ne cfg 0x0060 (Ne.symm h56)]
  · simp [hv, readsAt, readAtFn, List.filterMap_append,
      filterMap_readAtFn_initEvents, filterMap_readAtFn_compareEvents,
      filterMap_readAtFn_pollEvents_ne cfg 0x0060 (Ne.symm h56)]

/-- Claim C1 counterexample: the claim that a failing element-wise buffer
comparison aborts `main` with a non-zero exit code is false on the code:
with the representative configuration and an environment whose transfer
corrupted every output element (and no exception), the run still returns
`EXIT_SUCCESS` (the `return EXIT_FAILURE` after the FAILURE message is
commented out in `main.cpp`). -/
theorem c1_counterexample :
    envMismatch.throwAt = none ∧
    0 < verifyErrors envMismatch cfg0.dataAmount ∧
    exitCode cfg0 envMismatch = some EXIT_SUCCESS ∧
    EXIT_SUCCESS = 0 := by
  obtain ⟨-, hres⟩ :=
    runMain_closed cfg0 (rfl : envMismatch.throwAt = none) [0] (by decide) 1 (by decide) [] rfl
  exact ⟨rfl, by decide, by simp [exitCode, hres], rfl⟩

/-- Claim C1 (amended): a failure reported by the AFU wrapper as an
exception aborts `main` at that first failure with `EXIT_FAILURE` and no
retry (in particular an exception from the constructor ends the run with
nothing but the construction attempt in the trace); a buffer-comparison
mismatch, however, does not abort and does not change the exit code. -/
theorem c1_exception_aborts_with_failure (cfg : Config) (env : Env) :
    (∀ e, (runMain cfg env).2 = some (Stop.exn e) →
      exitCode cfg env = some EXIT_FAILURE ∧ EXIT_FAILURE ≠ EXIT_SUCCESS) ∧
    (∀ e, env.throwAt = some (0, e) →
      runMain cfg env = (⟨1, [Event.ctor]⟩, some (Stop.exn e))) := by
  constructor
  · intro e he
    exact ⟨by simp [exitCode, he], by decide⟩
  · intro e he
    simp [runMain, seq, afuStep, he]

/-- Claim C6: every wrapper exception escaping the test loop is caught at
the top level of `main` and printed: `FPGA_BUSY` prints the busy message,
`FPGA_NOT_FOUND` prints the not-found message with the accelerator UUID,
any other `fpga_result` prints `fpgaErrStr(e)`, a `runtime_error` prints
`e.what()`, and a `no_driver` exception prints the no-driver message; in
every such case `main` returns `EXIT_FAILURE`. -/
theorem c6_exception_messages (cfg : Config) (env : Env) (e : CppExn)
    (h : (runMain cfg env).2 = some (Stop.exn e)) :
    exitCode cfg env = some EXIT_FAILURE ∧
    stderrOutput cfg env = some (handleException cfg e) ∧
    (e = CppExn.fpgaResult FpgaResult.FPGA_BUSY →
      stderrOutput cfg env = some "ERROR: All FPGAs busy.") ∧
    (e = CppExn.fpgaResult FpgaResult.FPGA_NOT_FOUND →
      stderrOutput cfg env =
        some ("ERROR: FPGA with accelerator " ++ cfg.uuid ++ " not found.")) ∧
    (∀ r, e = CppExn.fpgaResult r → r ≠ FpgaResult.FPGA_BUSY →
      r ≠ FpgaResult.FPGA_NOT_FOUND →
      stderrOutput cfg env = some ("ERROR: " ++ cfg.fpgaErrStr r)) ∧
    (∀ msg, e = CppExn.runtimeError msg → stderrOutput cfg env = some msg) ∧
    (e = CppExn.noDriver → stderrOutput cfg env = some "ERROR: No FPGA driver found.") := by
  have hs : stderrOutput cfg env = some (handleException cfg e) := by
    simp [stderrOutput, h]
  refine ⟨by simp [exitCode, h], hs, ?_, ?_, ?_, ?_, ?_⟩
  · rintro rfl
    rw [hs]
    simp [handleException]
  · rintro rfl
    rw [hs]
    simp [handleException]
  · rintro r rfl hb hnf
    rw [hs]
    simp [handleException, hb, hnf]
  · rintro msg rfl
    rw [hs]
    rfl
  · rintro rfl
    rw [hs]
    rfl

theorem repr32_of_eq_mul_pow (k m e : Nat) (hm : m < 2 ^ 24) (hk : k = m * 2 ^ e) :
    Repr32 ((k : ℚ)) := by
  refine ⟨(m : ℤ), (e : ℤ), ?_, ?_, ?_⟩
  · rw [abs_of_nonneg (Int.natCast_nonneg m)]
    exact_mod_cast hm
  · exact le_trans (by norm_num) (Int.natCast_nonneg e)
  · rw [hk]
    push_cast
    rw [zpow_natCast]

theorem repr32_div_64 (k m e : Nat) (hm : m < 2 ^ 24) (hk : k = m * 2 ^ e) :
    Repr32 ((k : ℚ) / 64) := by
  refine ⟨(m : ℤ), (e : ℤ) - 6, ?_, ?_, ?_⟩
  · rw [abs_of_nonneg (Int.natCast_nonneg m)]
    exact_mod_cast hm
  · have : (0 : ℤ) ≤ (e : ℤ) := Int.natCast_nonneg e
    omega
  · rw [hk]
    push_cast
    rw [zpow_sub₀ (by norm_num : (2 : ℚ) ≠ 0), zpow_natCast]
    norm_num
    ring

/-- Claim C8: the value written to `MMIO_SIZE` equals the exact mathematical
ceiling of `DATA_AMOUNT * sizeof(dma_data_t) / AFU::CL_BYTES`, under the
conditions the claim itself names: the single-precision computation
introduces no rounding error.  Formally: for any correct binary32 rounding,
when `CL_BYTES = 64`, the product does not overflow `unsigned`, and the
total byte count is exactly representable in 24 significand bits, the
computed cache-line count is the exact ceiling. -/
theorem c8_size_is_exact_ceiling (cfg : Config)
    (hr : IsF32Rounding cfg.rnd)
    (hcl : cfg.clBytes = 64)
    (hov : cfg.dataAmount * cfg.sizeofData < 2 ^ 32)
    (m e : Nat) (hm : m < 2 ^ 24)
    (hme : cfg.dataAmount * cfg.sizeofData = m * 2 ^ e) :
    numCls cfg =
      (⌈((cfg.dataAmount * cfg.sizeofData : ℕ) : ℚ) / ((cfg.clBytes : ℕ) : ℚ)⌉).toNat := by
  have htb : totalBytes cfg = cfg.dataAmount * cfg.sizeofData := Nat.mod_eq_of_lt hov
  have hc64 : ((cfg.clBytes : ℕ) : ℚ) = (64 : ℚ) := by rw [hcl]; norm_num
  have h1 : cfg.rnd ((totalBytes cfg : ℚ)) = ((cfg.dataAmount * cfg.sizeofData : ℕ) : ℚ) := by
    rw [htb]
    exact hr _ (repr32_of_eq_mul_pow _ m e hm hme)
  have h2 : cfg.rnd ((cfg.clBytes : ℚ)) = (64 : ℚ) := by
    rw [hc64]
    exact hr _ ⟨64, 0, by norm_num, by norm_num, by norm_num⟩
  have h3 : cfg.rnd (((cfg.dataAmount * cfg.sizeofData : ℕ) : ℚ) / (64 : ℚ)) =
      ((cfg.dataAmount * cfg.sizeofData : ℕ) : ℚ) / (64 : ℚ) :=
    hr _ (repr32_div_64 _ m e hm hme)
  unfold numCls
  rw [h1, h2, h3, hc64]

theorem c1_witness :
    runMain cfg0 envThrow =
      (⟨1, [Event.ctor]⟩, some (Stop.exn (CppExn.fpgaResult FpgaResult.FPGA_BUSY))) :=
  (c1_exception_aborts_with_failure cfg0 envThrow).2 _ rfl

theorem c2_witness :
    verifyErrors env0 cfg0.dataAmount =
      ((List.range cfg0.dataAmount).filter
        (fun i => env0.outputAfter i ≠ env0.inputAfter i)).length ∧
    (0 < verifyErrors env0 cfg0.dataAmount ↔
      Event.printFailure (verifyErrors env0 cfg0.dataAmount) ∈ mainTrace cfg0 env0) :=
  c2_verification_counts_mismatches cfg0 env0 rfl [0] (by decide) 1 (by decide) [] rfl

theorem c3_witness :
    (mainTrace cfg0 env0).filterMap (phaseOf cfg0) =
      [1, 1] ++ [2, 2, 2, 2] ++ List.replicate 2 3 ++
        List.replicate cfg0.dataAmount 4 ++ [5, 5] :=
  c3_phases_in_strict_order cfg0 env0 rfl [0] (by decide) 1 (by decide) [] rfl (by decide)

theorem c4_witness :
    ∃ pre post,
      mainTrace cfg0 env0 =
        pre ++
          (([0] : List Nat).flatMap (fun z =>
              Event.mmioRead cfg0.doneOff z ::
                (if cfg0.sleepWhileWaiting then [Event.sleepMs cfg0.sleepMsVal] else [])) ++
            [Event.mmioRead cfg0.doneOff 1]) ++
          compareEvents env0 cfg0.dataAmount ++ post ∧
      readsAt cfg0.doneOff pre = [] :=
  c4_busy_wait_on_done cfg0 env0 rfl [0] (by decide) 1 (by decide) [] rfl

theorem c5_witness :
    mmioAccesses (mainTrace cfg0 env0) =
      [cfg0.rdAddrOff, cfg0.wrAddrOff, cfg0.sizeOff, cfg0.goOff] ++
        List.replicate 2 cfg0.doneOff ++ [0x0060] ∧
    writesAt cfg0.rdAddrOff (mainTrace cfg0 env0) = [env0.inputAddr] ∧
    writesAt cfg0.wrAddrOff (mainTrace cfg0 env0) = [env0.outputAddr] ∧
    writesAt cfg0.sizeOff (mainTrace cfg0 env0) = [numCls cfg0] ∧
    writesAt cfg0.goOff (mainTrace cfg0 env0) = [1] ∧
    writesAt cfg0.doneOff (mainTrace cfg0 env0) = [] ∧
    writesAt 0x0060 (mainTrace cfg0 env0) = [] ∧
    readsAt cfg0.doneOff (mainTrace cfg0 env0) = [0] ++ [1] ∧
    readsAt 0x0060 (mainTrace cfg0 env0) = [env0.resets] :=
  c5_mmio_offsets_amended cfg0 env0 rfl [0] (by decide) 1 (by decide) [] rfl (by decide)

theorem c6_witness :
    exitCode cfg0 envThrow = some EXIT_FAILURE ∧
    stderrOutput cfg0 envThrow = some "ERROR: All FPGAs busy." := by
  have h : (runMain cfg0 envThrow).2 =
      some (Stop.exn (CppExn.fpgaResult FpgaResult.FPGA_BUSY)) := by decide
  obtain ⟨h1, -, h3, -⟩ := c6_exception_messages cfg0 envThrow _ h
  exact ⟨h1, h3 rfl⟩

theorem c7_witness :
    mallocAddrs (mainTrace cfg0 env0) = [env0.inputAddr, env0.outputAddr] ∧
    freeAddrs (mainTrace cfg0 env0) = [env0.inputAddr, env0.outputAddr] ∧
    (mainTrace cfg0 env0).take 3 =
      [Event.ctor, Event.malloc cfg0.dataAmount env0.inputAddr,
        Event.malloc cfg0.dataAmount env0.outputAddr] ∧
    ∃ pre, mainTrace cfg0 env0 =
      pre ++ [Event.free env0.inputAddr, Event.free env0.outputAddr] :=
  c7_malloc_free_pairing cfg0 env0 rfl [0] (by decide) 1 (by decide) [] rfl

theorem c8_witness :
    numCls cfg0 =
      (⌈((cfg0.dataAmount * cfg0.sizeofData : ℕ) : ℚ) /
        ((cfg0.clBytes : ℕ) : ℚ)⌉).toNat :=
  c8_size_is_exact_ceiling cfg0 (fun q _ => rfl) rfl (by decide) 1 3 (by decide) rfl

theorem c9_witness :
    exitCode cfg0 envMismatch = some EXIT_SUCCESS ∧
    Event.printSuccess ∈ mainTrace cfg0 envMismatch ∧
    (0 < verifyErrors envMismatch cfg0.dataAmount →
      Event.printFailure (verifyErrors envMismatch cfg0.dataAmount) ∈
          mainTrace cfg0 envMismatch ∧
        exitCode cfg0 envMismatch ≠ some EXIT_FAILURE) :=
  c9_no_exception_exits_success cfg0 envMismatch rfl [0] (by decide) 1 (by decide) [] rfl

theorem c10_witness :
    ∃ pre post,
      mainTrace cfg0 env0 = pre ++ Event.mmioWrite cfg0.goOff 1 :: post ∧
      (∀ i, i < cfg0.dataAmount →
        Event.assignInput i (env0.rands i) ∈ pre ∧ Event.assignOutput i 0 ∈ pre) ∧
      writesAt cfg0.goOff (mainTrace cfg0 env0) = [1] :=
  c10_buffers_initialized_before_go cfg0 env0 rfl [0] (by decide) 1 (by decide) [] rfl
    (by decide) (by decide) (by decide)
